import Mathlib

/-!
Shallow embedding of `src/patent_categorizer_ui.py` (NovelusIP/Patent-Categorizer).

The Python string primitives used by the source (`str.strip`, `str.replace`,
slicing, `startswith`, `endswith`) are modelled by structurally recursive
functions on the character list of a `String`, so that every definition
evaluates inside the kernel.  The SQLite cache table `patent_cache`
(`patent_number TEXT PRIMARY KEY, data_json TEXT, gpt_json TEXT`) is modelled
as an association list keyed by the primary-key column, and the two HTTP
collaborators (the PatentsView APIs and the Together LLM endpoint) are
modelled as oracles supplied to the embedded functions.
-/

/-- The two values offered by the Streamlit selectbox for `patent_type`. -/
inductive PatentType : Type
  | grantedPatent
  | patentApplication
deriving DecidableEq, Repr

/-- The Python string value carried by `patent_type`. -/
def PatentType.str : PatentType → String
  | PatentType.grantedPatent => "Granted Patent"
  | PatentType.patentApplication => "Patent Application"

/-- The `field_type` strings returned by `normalize_patent_number`. -/
inductive FieldType : Type
  | patentNumber
  | applicationNumber
  | publicationNumber
deriving DecidableEq, Repr

/-- Python `str.strip()` on the character list: drop whitespace at both ends. -/
def listTrim (s : List Char) : List Char :=
  ((s.dropWhile Char.isWhitespace).reverse.dropWhile Char.isWhitespace).reverse

/-- Python `str.strip()` at `String` level. -/
def pyStrip (s : String) : String :=
  String.mk (listTrim s.data)

/-- Python `s.replace(c, "")` for a single-character pattern: remove all
occurrences of the character. -/
def removeChar (c : Char) (s : List Char) : List Char :=
  s.filter (fun a => a ≠ c)

/-- Fuel-driven core of Python `s.replace(pat, "")` for a non-empty pattern:
one left-to-right pass removing non-overlapping occurrences. -/
def removeAllAux (pat : List Char) : Nat → List Char → List Char
  | 0, s => s
  | _ + 1, [] => []
  | fuel + 1, c :: rest =>
    if pat.isPrefixOf (c :: rest) then
      removeAllAux pat fuel ((c :: rest).drop pat.length)
    else
      c :: removeAllAux pat fuel rest

/-- Python `s.replace(pat, "")` for a non-empty pattern. -/
def removeAll (pat : String) (s : List Char) : List Char :=
  removeAllAux pat.data s.length s

/-- Python `s.startswith(p)`. -/
def startsWithStr (p s : String) : Bool :=
  p.data.isPrefixOf s.data

/-- Python `s.endswith(p)`. -/
def endsWithStr (p s : String) : Bool :=
  p.data.isSuffixOf s.data

/-- Python `s[n:]` (slicing counts code points). -/
def pyDrop (s : String) (n : Nat) : String :=
  String.mk (s.data.drop n)

/-- Python `s[:n]` for `0 ≤ n`. -/
def pyTake (s : String) (n : Nat) : String :=
  String.mk (s.data.take n)

/-- Python truthiness-based `a or b` on two optional strings
(`None` and `""` are falsy). -/
def pyOr (a b : Option String) : Option String :=
  match a with
  | none => b
  | some s => if s = "" then b else a

/-- Line 33 of the source: `patent_input.strip().replace(",", "").replace("/", "").replace("-", "")`. -/
def cleanInput (s : String) : String :=
  String.mk (removeChar '-' (removeChar '/' (removeChar ',' (listTrim s.data))))

/-- Line 47 of the source: `clean_input.replace("US", "").replace("B1", "").replace("B2", "").replace("A1", "")`. -/
def stripPatentCodes (s : String) : String :=
  String.mk (removeAll "A1" (removeAll "B2" (removeAll "B1" (removeAll "US" s.data))))

/-- Embedding of `normalize_patent_number` (source lines 29-48). -/
def normalize_patent_number (patent_input : String) (patent_type : PatentType) :
    String × FieldType :=
  let clean_input := cleanInput patent_input
  match patent_type with
  | PatentType.patentApplication =>
    if clean_input.length == 11 && startsWithStr "20" clean_input then
      (clean_input, FieldType.publicationNumber)
    else if 7 ≤ clean_input.length then
      (clean_input, FieldType.applicationNumber)
    else
      (clean_input, FieldType.applicationNumber)
  | PatentType.grantedPatent =>
    (pyStrip (stripPatentCodes clean_input), FieldType.patentNumber)

/-- A concrete computable parser used to instantiate the abstract JSON parser
in witnesses and counterexamples: accepts a non-empty all-digit string as a
number and rejects everything else. -/
def digitParse (s : String) : Option Nat :=
  if s.data.all Char.isDigit && !s.data.isEmpty then
    some (s.data.foldl (fun n c => n * 10 + (c.toNat - 48)) 0)
  else
    none

/-- A patent dict as produced by the pipeline: the keys written by the
normalization block of `query_patent` (source lines 114-126).  Every value is
optional; `none` models an absent key. -/
structure PyPatent : Type where
  patent_number : Option String
  patent_title : Option String
  patent_abstract : Option String
  patent_date : Option String
  filing_date : Option String
  application_number : Option String
  publication_number : Option String
  assignee_organization : Option String
  inventor_first_name : Option String
  inventor_last_name : Option String
  patent_type : Option String
deriving DecidableEq, Repr

/-- A raw patent dict of an API response body, with the field names requested
from the search endpoints (source lines 69-88). -/
structure ApiPatent : Type where
  patent_id : Option String
  patent_number : Option String
  patent_title : Option String
  patent_abstract : Option String
  patent_date : Option String
  publication_date : Option String
  app_date : Option String
  application_number : Option String
  publication_number : Option String
  assignee_organization : Option String
  inventor_name_first : Option String
  inventor_name_last : Option String
deriving DecidableEq, Repr

/-- The top-level dict passed around the pipeline; `patents = none` models a
dict without the `patents` key. -/
structure PatentData : Type where
  patents : Option (List PyPatent)
deriving DecidableEq, Repr

/-- A serialized JSON column value: either the serialization of a value
(`json.loads` recovers it) or a malformed string (`json.loads` raises). -/
inductive StoredJson (α : Type) : Type
  | wellFormed (val : α)
  | malformed (raw : String)
deriving DecidableEq, Repr

/-- One row of the `patent_cache` table apart from its primary key:
`data_json` and the nullable `gpt_json`. -/
structure CacheRow : Type where
  data_json : StoredJson PatentData
  gpt_json : Option String
deriving DecidableEq, Repr

/-- The `patent_cache` table: rows keyed by the `patent_number` column. -/
abbrev Cache : Type := List (String × CacheRow)

/-- SQL `SELECT ... FROM patent_cache WHERE patent_number=?` followed by
`fetchone()`. -/
def getRow : Cache → String → Option CacheRow
  | [], _ => none
  | kr :: rest, key => if kr.1 = key then some kr.2 else getRow rest key

/-- Deletion of the rows carrying a key, as performed by SQL REPLACE on a
primary-key conflict. -/
def deleteRow : Cache → String → Cache
  | [], _ => []
  | kr :: rest, key => if kr.1 = key then deleteRow rest key else kr :: deleteRow rest key

/-- SQL `REPLACE INTO patent_cache (patent_number, data_json) VALUES (?, ?)`:
the conflicting row is deleted and a fresh row is inserted, so the
unspecified `gpt_json` column becomes NULL. -/
def replaceRecord (cache : Cache) (key : String) (dj : StoredJson PatentData) : Cache :=
  (key, CacheRow.mk dj none) :: deleteRow cache key

/-- SQL `UPDATE patent_cache SET gpt_json=? WHERE patent_number=?`: rows with
a matching key get the new `gpt_json`; with no matching row this is a no-op. -/
def updateGpt : Cache → String → String → Cache
  | [], _, _ => []
  | kr :: rest, key, v =>
    (if kr.1 = key then (kr.1, CacheRow.mk kr.2.data_json (some v)) else kr) ::
      updateGpt rest key v

/-- An HTTP response of one of the PatentsView endpoints, as observed by the
pipeline: `failure` covers non-200 statuses, request exceptions and malformed
response JSON; `success ps` is a 200 response whose body carries the list
`ps` under the `patents` key (absent key behaves as the empty list at the
`if "patents" in data and data["patents"]` guard). -/
inductive ApiResponse (α : Type) : Type
  | failure
  | success (patents : List α)
deriving DecidableEq, Repr

/-- Whether a response yields a non-empty result set. -/
def hasData {α : Type} : ApiResponse α → Bool
  | ApiResponse.success (_ :: _) => true
  | _ => false

/-- Network oracle for one `query_patent` run: the response of the single
string-shaped query sent to the new PatentSearch API, and the responses of
the successive dict-shaped queries sent to the legacy API. -/
structure QueryEnv : Type where
  searchApi : ApiResponse ApiPatent
  legacyApi : List (ApiResponse PyPatent)
deriving DecidableEq, Repr

/-- Response of the i-th legacy attempt; beyond the supplied list the oracle
answers with a failure. -/
def getResp (rs : List (ApiResponse PyPatent)) (i : Nat) : ApiResponse PyPatent :=
  rs.getD i ApiResponse.failure

/-- Number of dict-shaped queries in `search_queries` (source lines 61-88):
two for applications, three for granted patents.  Only those reach the
legacy API loop; the single string-shaped query is skipped there. -/
def legacyAttempts : PatentType → Nat
  | PatentType.patentApplication => 2
  | PatentType.grantedPatent => 3

/-- The cache key built at source line 54: `f"{patent_type}_{normalized_number}"`. -/
def cacheKey (patent_type : PatentType) (normalized_number : String) : String :=
  PatentType.str patent_type ++ "_" ++ normalized_number

/-- The per-patent normalization block of the new-API branch
(source lines 114-126), including the Python `or` fall-through chains. -/
def normalizeApiPatent (patent_type : PatentType) (p : ApiPatent) : PyPatent :=
  PyPatent.mk
    (pyOr (pyOr p.patent_id p.patent_number) p.publication_number)
    p.patent_title
    p.patent_abstract
    (pyOr p.patent_date p.publication_date)
    p.app_date
    p.application_number
    p.publication_number
    p.assignee_organization
    p.inventor_name_first
    p.inventor_name_last
    (some (PatentType.str patent_type))

/-- Source line 162: `patent["patent_type"] = patent_type` on each legacy
result before returning it otherwise unchanged. -/
def setPatentType (patent_type : PatentType) (p : PyPatent) : PyPatent :=
  { p with patent_type := some (PatentType.str patent_type) }

/-- The legacy-API loop (source lines 138-176): one POST per dict-shaped
query, stopping at the first 200 response with a non-empty `patents` list,
which is cached via REPLACE and returned; every attempt counts one network
call. -/
def legacyLoop (patent_type : PatentType) (key : String) (cache : Cache)
    (resps : List (ApiResponse PyPatent)) (i : Nat) (calls : Nat) :
    Nat → Option PatentData × Cache × Nat
  | 0 => (none, cache, calls)
  | remaining + 1 =>
    match getResp resps i with
    | ApiResponse.success (p :: ps) =>
      let data := PatentData.mk (some ((p :: ps).map (setPatentType patent_type)))
      (some data, replaceRecord cache key (StoredJson.wellFormed data), calls + 1)
    | _ => legacyLoop patent_type key cache resps (i + 1) (calls + 1) remaining

/-- Embedding of `query_patent` (source lines 50-179).  The result carries
the returned value (`none` models Python `None`), the final cache state and
the number of network calls made; a `json.JSONDecodeError` escaping the
function is an `Except.error`.  On a cache miss the new API is posted exactly
once (only the first, string-shaped query survives the
`isinstance(query["q"], str)` guard), then the legacy loop runs. -/
def query_patent (patent_input : String) (patent_type : PatentType)
    (cache : Cache) (env : QueryEnv) :
    Except String (Option PatentData × Cache × Nat) :=
  let normalized := normalize_patent_number patent_input patent_type
  let key := cacheKey patent_type normalized.1
  match getRow cache key with
  | some row =>
    match row.data_json with
    | StoredJson.wellFormed d => Except.ok (some d, cache, 0)
    | StoredJson.malformed _ => Except.error "JSONDecodeError"
  | none =>
    match env.searchApi with
    | ApiResponse.success (p :: ps) =>
      let data := PatentData.mk (some ((p :: ps).map (normalizeApiPatent patent_type)))
      Except.ok (some data, replaceRecord cache key (StoredJson.wellFormed data), 1)
    | _ =>
      Except.ok (legacyLoop patent_type key cache env.legacyApi 0 1 (legacyAttempts patent_type))

/-- Outcome of the Together LLM collaborator for one invocation of
`call_together_llama3`. -/
inductive LlmResult : Type
  | noKey
  | httpError (status : Nat) (text : String)
  | content (text : String)
deriving DecidableEq, Repr

/-- Embedding of `call_together_llama3` (source lines 181-204): raises when
the API key is missing or the endpoint answers non-200, otherwise returns
the message content. -/
def call_together_llama3 : LlmResult → Except String String
  | LlmResult.noKey =>
    Except.error "Together API key not found. Please set TOGETHER_API_KEY in .env or Streamlit secrets."
  | LlmResult.httpError status text =>
    Except.error ("Together API Error: " ++ toString status ++ ", " ++ text)
  | LlmResult.content text => Except.ok text

/-- Value returned by `categorize_with_llm` when it does not raise: either
the parsed categorization or the structured error dict, whose optional
second field models the `raw_response` key. -/
inductive CatOutcome (J : Type) : Type
  | result (j : J)
  | errorVal (msg : String) (raw : Option String)
deriving DecidableEq, Repr

/-- The markdown-fence cleanup of `categorize_with_llm`
(source lines 242-247): strip, drop a leading seven-character `` ```json ``,
drop a trailing `` ``` ``, strip again. -/
def cleanResponse (s : String) : String :=
  let t1 := pyStrip s
  let t2 := if startsWithStr "```json" t1 then pyDrop t1 7 else t1
  let t3 := if endsWithStr "```" t2 then pyTake t2 (t2.length - 3) else t2
  pyStrip t3

/-- The gpt-cache lookup of `categorize_with_llm` (source lines 213-219):
a row whose `gpt_json` is non-null, non-empty and parses yields the cached
result; corruption is swallowed (`except json.JSONDecodeError: pass`). -/
def gptCached {J : Type} (parse : String → Option J) (cache : Cache) (key : String) :
    Option J :=
  match getRow cache key with
  | some row =>
    match row.gpt_json with
    | some s => if s = "" then none else parse s
    | none => none
  | none => none

/-- Embedding of `categorize_with_llm` (source lines 206-260), parameterized
over the `json.loads`/`json.dumps` pair used for the categorization JSON.
The result carries the outcome, the final cache state and the number of
`call_together_llama3` invocations; the uncaught KeyError/IndexError of
`patent_data["patents"][0]` is an `Except.error`.  The prompt built from
title and abstract is a collaborator concern abstracted by the `llm`
oracle. -/
def categorize_with_llm {J : Type} (parse : String → Option J) (dump : J → String)
    (llm : LlmResult) (patent_data : PatentData) (cache : Cache) :
    Except String (CatOutcome J × Cache × Nat) :=
  match patent_data.patents with
  | none => Except.error "KeyError: patents"
  | some [] => Except.error "IndexError: list index out of range"
  | some (patent :: _) =>
    let patent_number := patent.patent_number.getD ""
    match gptCached parse cache patent_number with
    | some j => Except.ok (CatOutcome.result j, cache, 0)
    | none =>
      match call_together_llama3 llm with
      | Except.error e => Except.ok (CatOutcome.errorVal e none, cache, 1)
      | Except.ok response_text =>
        let cleaned := cleanResponse response_text
        match parse cleaned with
        | none =>
          Except.ok (CatOutcome.errorVal "Failed to parse LLM response as JSON"
            (some (pyTake cleaned 500)), cache, 1)
        | some result =>
          Except.ok (CatOutcome.result result,
            updateGpt cache patent_number (dump result), 1)

/-- Modelled from the spec: the `source` tag of a PatentRecord.  The variant
under src sets no `source` field; the tags `patentsview_search`,
`patentsview_legacy` and `google_patents_fallback` come from the data model
of the specification. -/
inductive SpecSource : Type
  | patentsview_search
  | patentsview_legacy
  | google_patents_fallback
deriving DecidableEq, Repr

/-- Modelled from the spec: the normalized PatentRecord shape with a `source`
tag and every non-identifying field optional.  The variant under src returns
raw dicts without a `source` tag. -/
structure SpecRecord : Type where
  number : String
  source : SpecSource
  title : Option String
  abstract : Option String
  filing_date : Option String
  grant_date : Option String
  assignees : List String
  inventors : List (String × String)
  cpc_codes : List String
  ipc_codes : List String
  uspc_codes : List String
  citation_count : Option Nat
  claim_text : Option String
deriving DecidableEq, Repr

/-- Modelled from the spec: outcomes of the three retrieval stages for one
identifier — the reconciled record of the primary API if it yielded one, the
reconciled record of the legacy API if it yielded one, and the two metadata
tags (document title, document description) of a successful scrape. -/
structure SpecEnv : Type where
  primaryResult : Option SpecRecord
  legacyResult : Option SpecRecord
  scrapeResult : Option (String × String)
deriving DecidableEq, Repr

/-- Modelled from the spec: the minimal PatentRecord synthesized by the
scrape fallback — `source = google_patents_fallback`, only title and abstract
populated, no dates, codes or inventors. -/
def scrapeRecord (number : String) (meta : String × String) : SpecRecord :=
  SpecRecord.mk number SpecSource.google_patents_fallback
    (some meta.1) (some meta.2) none none [] [] [] [] [] none none

/-- Modelled from the spec: tagging a stage result with the source of the
stage that produced it. -/
def setSource (src : SpecSource) (r : SpecRecord) : SpecRecord :=
  { r with source := src }

/-- Modelled from the spec: the ordered fallback of the retrieval pipeline —
primary search API, then legacy API, then scrape; the first stage yielding
data wins and its record is tagged with its source.  The scrape stage and the
`source` tags are present in repository variants that are not under src. -/
def retrieve_fallback (number : String) (env : SpecEnv) : Option SpecRecord :=
  match env.primaryResult with
  | some r => some (setSource SpecSource.patentsview_search r)
  | none =>
    match env.legacyResult with
    | some r => some (setSource SpecSource.patentsview_legacy r)
    | none =>
      match env.scrapeResult with
      | some meta => some (scrapeRecord number meta)
      | none => none

/-- A concrete patent dict (the test patent of the source itself, 6172354,
"Operator input device") used by the witnesses. -/
def samplePatent : PyPatent :=
  PyPatent.mk (some "6172354") (some "Operator input device")
    (some "An operator input device.") none none none none none none none
    (some "Granted Patent")

/-- A concrete pipeline result dict used by the witnesses. -/
def sampleData : PatentData :=
  PatentData.mk (some [samplePatent])

/-- A concrete API response dict used by the witnesses. -/
def sampleApiPatent : ApiPatent :=
  ApiPatent.mk (some "6172354") none (some "Operator input device")
    (some "An operator input device.") none none none none none none none none

/-- A concrete spec-model record used by the witnesses. -/
def sampleSpecRecord : SpecRecord :=
  SpecRecord.mk "6172354" SpecSource.patentsview_search
    (some "Operator input device") (some "An operator input device.")
    none none [] [] [] [] [] none none

/-- A lookup after `updateGpt` on the looked-up key sees the new `gpt_json`
and the unchanged `data_json`. -/
theorem getRow_updateGpt (cache : Cache) (key : String) (v : String) (row : CacheRow)
    (h : getRow cache key = some row) :
    getRow (updateGpt cache key v) key = some (CacheRow.mk row.data_json (some v)) := by
  induction cache with
  | nil => simp [getRow] at h
  | cons hd rest ih =>
    by_cases hk : hd.1 = key
    · rw [getRow, if_pos hk] at h
      rw [updateGpt, if_pos hk, getRow, if_pos hk]
      rw [Option.some_inj] at h
      rw [h]
    · rw [getRow, if_neg hk] at h
      rw [updateGpt, if_neg hk, getRow, if_neg hk]
      exact ih h

/-- A lookup after `replaceRecord` on the written key sees the fresh row:
the new `data_json` and a NULL `gpt_json`. -/
theorem getRow_replaceRecord (cache : Cache) (key : String) (dj : StoredJson PatentData) :
    getRow (replaceRecord cache key dj) key = some (CacheRow.mk dj none) := by
  simp [getRow, replaceRecord, List.find?]

/-- When no legacy response carries data, the legacy loop returns nothing,
leaves the cache unchanged and spends one network call per attempt. -/
theorem legacyLoop_all_fail (patent_type : PatentType) (key : String) (cache : Cache)
    (resps : List (ApiResponse PyPatent))
    (h : ∀ i, hasData (getResp resps i) = false) :
    ∀ remaining i calls,
      legacyLoop patent_type key cache resps i calls remaining = (none, cache, calls + remaining) := by
  intro remaining
  induction remaining with
  | zero => intro i calls; simp [legacyLoop]
  | succ n ih =>
    intro i calls
    have hi := h i
    match hr : getResp resps i with
    | ApiResponse.failure =>
      rw [legacyLoop, hr]
      rw [ih (i + 1) (calls + 1)]
      simp [Nat.add_assoc, Nat.add_comm 1 n]
    | ApiResponse.success [] =>
      rw [legacyLoop, hr]
      rw [ih (i + 1) (calls + 1)]
      simp [Nat.add_assoc, Nat.add_comm 1 n]
    | ApiResponse.success (p :: ps) =>
      rw [hr] at hi
      simp [hasData] at hi

/-- Claim C7: normalization is a total, pure, deterministic function of the
pair `(raw_input, patent_type)`: it is embedded as a total Lean function
(the Python body only uses non-raising string primitives), and two
invocations with equal inputs return equal `(normalized_number, field_type)`
pairs. -/
theorem c7_normalize_deterministic (r1 r2 : String) (t1 t2 : PatentType)
    (hr : r1 = r2) (ht : t1 = t2) :
    normalize_patent_number r1 t1 = normalize_patent_number r2 t2 := by
  rw [hr, ht]

/-- Witness for claim C7 at the concrete input of the debug test found in the source. -/
theorem c7_normalize_deterministic_witness :
    normalize_patent_number "US6172354B1" PatentType.grantedPatent =
      normalize_patent_number "US6172354B1" PatentType.grantedPatent :=
  c7_normalize_deterministic "US6172354B1" "US6172354B1"
    PatentType.grantedPatent PatentType.grantedPatent rfl rfl

/-- Claim C4: under type PatentApplication a cleaned input of length exactly
11 starting with "20" is classified `publication_number` and every other
input `application_number`; under type GrantedPatent the substrings "US",
"B1", "B2", "A1" are removed from the cleaned string by one left-to-right
pass each, in that order, and the field type is `patent_number`; in
particular `normalize("US6172354B1", GrantedPatent) = ("6172354",
patent_number)`. -/
theorem c4_normalize_classification (input : String) :
    (((cleanInput input).length == 11 && startsWithStr "20" (cleanInput input)) = true →
      normalize_patent_number input PatentType.patentApplication =
        (cleanInput input, FieldType.publicationNumber)) ∧
    (((cleanInput input).length == 11 && startsWithStr "20" (cleanInput input)) = false →
      (normalize_patent_number input PatentType.patentApplication).2 =
        FieldType.applicationNumber) ∧
    normalize_patent_number input PatentType.grantedPatent =
      (pyStrip (stripPatentCodes (cleanInput input)), FieldType.patentNumber) ∧
    normalize_patent_number "US6172354B1" PatentType.grantedPatent =
      ("6172354", FieldType.patentNumber) := by
  refine ⟨?_, ?_, rfl, rfl⟩
  · intro h
    simp [normalize_patent_number, h]
  · intro h
    simp only [normalize_patent_number, h]
    simp only [Bool.false_eq_true, if_false]
    split <;> rfl

/-- Witness for claim C4: the published-application example of the spec and a
separator-laden application number. -/
theorem c4_normalize_classification_witness :
    normalize_patent_number "20230123456" PatentType.patentApplication =
      (cleanInput "20230123456", FieldType.publicationNumber) ∧
    (normalize_patent_number "16/123,456" PatentType.patentApplication).2 =
      FieldType.applicationNumber :=
  ⟨(c4_normalize_classification "20230123456").1 (by decide),
   (c4_normalize_classification "16/123,456").2.1 (by decide)⟩

/-- Claim C3: when the composite cache key of an identifier already holds a
cached record (a row whose `data_json` parses), `query_patent` returns that
record with the cache unchanged and zero network calls. -/
theorem c3_cache_hit_no_network (input : String) (patent_type : PatentType)
    (cache : Cache) (env : QueryEnv) (row : CacheRow) (d : PatentData)
    (hrow : getRow cache
      (cacheKey patent_type (normalize_patent_number input patent_type).1) = some row)
    (hwf : row.data_json = StoredJson.wellFormed d) :
    query_patent input patent_type cache env = Except.ok (some d, cache, 0) := by
  simp [query_patent, hrow, hwf]

/-- Witness for claim C3: a cached record for patent 6172354 is returned
with zero network calls even though the search API could answer. -/
theorem c3_cache_hit_no_network_witness :
    query_patent "6172354" PatentType.grantedPatent
      [("Granted Patent_6172354", CacheRow.mk (StoredJson.wellFormed sampleData) none)]
      (QueryEnv.mk (ApiResponse.success [sampleApiPatent]) []) =
      Except.ok (some sampleData,
        [("Granted Patent_6172354", CacheRow.mk (StoredJson.wellFormed sampleData) none)], 0) :=
  c3_cache_hit_no_network "6172354" PatentType.grantedPatent
    [("Granted Patent_6172354", CacheRow.mk (StoredJson.wellFormed sampleData) none)]
    (QueryEnv.mk (ApiResponse.success [sampleApiPatent]) [])
    (CacheRow.mk (StoredJson.wellFormed sampleData) none) sampleData
    (by decide) rfl

/-- Claim C5: on a cache miss where the new API and every legacy attempt
fail to yield a non-empty result set, `query_patent` returns `None` and the
cache is unchanged — no entry is written; the network was consulted once per
stage attempt. -/
theorem c5_total_failure_no_write (input : String) (patent_type : PatentType)
    (cache : Cache) (env : QueryEnv)
    (hmiss : getRow cache
      (cacheKey patent_type (normalize_patent_number input patent_type).1) = none)
    (hsearch : hasData env.searchApi = false)
    (hlegacy : ∀ i, hasData (getResp env.legacyApi i) = false) :
    query_patent input patent_type cache env =
      Except.ok (none, cache, 1 + legacyAttempts patent_type) := by
  simp only [query_patent, hmiss]
  have hl := legacyLoop_all_fail patent_type
    (cacheKey patent_type (normalize_patent_number input patent_type).1) cache
    env.legacyApi hlegacy (legacyAttempts patent_type) 0 1
  match hs : env.searchApi with
  | ApiResponse.failure => simp [hl]
  | ApiResponse.success [] => simp [hl]
  | ApiResponse.success (p :: ps) =>
    rw [hs] at hsearch
    simp [hasData] at hsearch

/-- Witness for claim C5: an empty cache and a network where every stage
fails; the single new-API post and the three legacy attempts total four
calls, nothing is returned and nothing is written. -/
theorem c5_total_failure_no_write_witness :
    query_patent "6172354" PatentType.grantedPatent []
      (QueryEnv.mk ApiResponse.failure []) = Except.ok (none, [], 4) :=
  c5_total_failure_no_write "6172354" PatentType.grantedPatent []
    (QueryEnv.mk ApiResponse.failure []) rfl rfl (fun _ => rfl)

/-- Claim C2 (amended): when the stored record JSON for the looked-up key is
malformed, `query_patent` raises the JSON parse error instead of treating
the entry as a cache miss; no live retrieval is attempted.  (The source
calls `json.loads` on the cached value outside every try block.) -/
theorem c2_malformed_cache_raises (input : String) (patent_type : PatentType)
    (cache : Cache) (env : QueryEnv) (row : CacheRow) (raw : String)
    (hrow : getRow cache
      (cacheKey patent_type (normalize_patent_number input patent_type).1) = some row)
    (hmal : row.data_json = StoredJson.malformed raw) :
    query_patent input patent_type cache env = Except.error "JSONDecodeError" := by
  simp [query_patent, hrow, hmal]

/-- Witness for claim C2 (amended): a corrupted cached entry makes the
lookup raise. -/
theorem c2_malformed_cache_raises_witness :
    query_patent "6172354" PatentType.grantedPatent
      [("Granted Patent_6172354", CacheRow.mk (StoredJson.malformed "corrupted") none)]
      (QueryEnv.mk (ApiResponse.success [sampleApiPatent]) []) =
      Except.error "JSONDecodeError" :=
  c2_malformed_cache_raises "6172354" PatentType.grantedPatent
    [("Granted Patent_6172354", CacheRow.mk (StoredJson.malformed "corrupted") none)]
    (QueryEnv.mk (ApiResponse.success [sampleApiPatent]) [])
    (CacheRow.mk (StoredJson.malformed "corrupted") none) "corrupted"
    (by decide) rfl

/-- Counterexample to claim C2 as stated: with a malformed cached entry for
the key, `query_patent` raises a `json.JSONDecodeError` instead of falling
through to live retrieval — even though the search API stands ready with a
result that a live retrieval would have returned. -/
theorem c2_counterexample :
    query_patent "6172354" PatentType.grantedPatent
      [("Granted Patent_6172354", CacheRow.mk (StoredJson.malformed "not a json value") none)]
      (QueryEnv.mk (ApiResponse.success [sampleApiPatent]) []) =
      Except.error "JSONDecodeError" := rfl

/-- Claim C9: the REPLACE write performed by a successful live retrieval
inserts a fresh row for the key — `data_json` is the new record and
`gpt_json` is NULL — so a previously stored categorization for that key is
reset to absent, not left unchanged. -/
theorem c9_replace_resets_categorization (cache : Cache) (key : String)
    (row : CacheRow) (g : String) (dj : StoredJson PatentData)
    (_hrow : getRow cache key = some row) (hg : row.gpt_json = some g) :
    getRow (replaceRecord cache key dj) key = some (CacheRow.mk dj none) ∧
    (CacheRow.mk dj none).gpt_json ≠ row.gpt_json := by
  constructor
  · exact getRow_replaceRecord cache key dj
  · rw [hg]
    simp

/-- Witness for claim C9: a row holding both a record and a categorization
loses the categorization when the retrieval write replaces it. -/
theorem c9_replace_resets_categorization_witness :
    getRow (replaceRecord [("k", CacheRow.mk (StoredJson.wellFormed sampleData) (some "cat"))]
        "k" (StoredJson.wellFormed sampleData)) "k" =
      some (CacheRow.mk (StoredJson.wellFormed sampleData) none) ∧
    (CacheRow.mk (StoredJson.wellFormed sampleData) none).gpt_json ≠
      (CacheRow.mk (StoredJson.wellFormed sampleData) (some "cat")).gpt_json :=
  c9_replace_resets_categorization
    [("k", CacheRow.mk (StoredJson.wellFormed sampleData) (some "cat"))] "k"
    (CacheRow.mk (StoredJson.wellFormed sampleData) (some "cat")) "cat"
    (StoredJson.wellFormed sampleData) (by decide) rfl

/-- Claim C1 (amended): provided a cache row already exists under the
bare patent number of the record — the key the categorization cache reads and
updates — a second call to `categorize_with_llm` after a first successful
categorization returns that result from the cache with zero LLM invocations,
whatever the LLM oracle would answer the second time, for any parse/dump
pair that round-trips the result to a non-empty string. -/
theorem c1_cached_categorization {J : Type} (parse : String → Option J)
    (dump : J → String) (llm llm2 : LlmResult) (patent_data : PatentData)
    (cache cache2 : Cache) (p : PyPatent) (rest : List PyPatent) (j : J)
    (n : Nat) (row : CacheRow)
    (hp : patent_data.patents = some (p :: rest))
    (hrow : getRow cache (p.patent_number.getD "") = some row)
    (hrt : parse (dump j) = some j)
    (hne : dump j ≠ "")
    (h1 : categorize_with_llm parse dump llm patent_data cache =
      Except.ok (CatOutcome.result j, cache2, n)) :
    categorize_with_llm parse dump llm2 patent_data cache2 =
      Except.ok (CatOutcome.result j, cache2, 0) := by
  simp only [categorize_with_llm, hp] at h1 ⊢
  cases hc : gptCached parse cache (p.patent_number.getD "") with
  | some j0 =>
    simp only [hc] at h1
    have h2 : j0 = j ∧ cache = cache2 ∧ (0 : Nat) = n := by
      simpa using h1
    obtain ⟨hj0, hcc, _⟩ := h2
    rw [← hcc]
    simp [hc, hj0]
  | none =>
    simp only [hc] at h1
    cases hcall : call_together_llama3 llm with
    | error e =>
      simp [hcall] at h1
    | ok text =>
      simp only [hcall] at h1
      cases hparse : parse (cleanResponse text) with
      | none =>
        simp [hparse] at h1
      | some r =>
        simp only [hparse] at h1
        have h2 : r = j ∧
            updateGpt cache (p.patent_number.getD "") (dump r) = cache2 ∧ (1 : Nat) = n := by
          simpa using h1
        obtain ⟨hrj, hcc, _⟩ := h2
        subst hrj
        rw [← hcc]
        have hup := getRow_updateGpt cache (p.patent_number.getD "") (dump r) row hrow
        have hcached : gptCached parse
            (updateGpt cache (p.patent_number.getD "") (dump r))
            (p.patent_number.getD "") = some r := by
          simp only [gptCached, hup]
          rw [if_neg hne, hrt]
        simp [hcached]

/-- Witness for claim C1 (amended): a row exists under the bare key
"6172354"; the first call stores the parsed result there and the second call
returns it with zero LLM invocations even when the key is gone. -/
theorem c1_cached_categorization_witness :
    categorize_with_llm digitParse (fun _ => "7") LlmResult.noKey sampleData
      [("6172354", CacheRow.mk (StoredJson.wellFormed sampleData) (some "7"))] =
      Except.ok (CatOutcome.result 7,
        [("6172354", CacheRow.mk (StoredJson.wellFormed sampleData) (some "7"))], 0) :=
  c1_cached_categorization digitParse (fun _ => "7") (LlmResult.content "7")
    LlmResult.noKey sampleData
    [("6172354", CacheRow.mk (StoredJson.wellFormed sampleData) none)]
    [("6172354", CacheRow.mk (StoredJson.wellFormed sampleData) (some "7"))]
    samplePatent [] 7 1 (CacheRow.mk (StoredJson.wellFormed sampleData) none)
    rfl (by decide) rfl (by decide) rfl

/-- Counterexample to claim C1 as stated: `query_patent` caches the record
under the composite key "Granted Patent_6172354", but categorization reads
and updates under the bare "6172354"; with no row under the bare key the
UPDATE of the first successful categorization matches no row, so a second call
with the same key invokes the LLM again (invocation count 1, not 0) and
reports whatever the LLM answers this time (8, not the first result 7)
rather than a cached result. -/
theorem c1_counterexample :
    categorize_with_llm digitParse (fun _ => "7") (LlmResult.content "7") sampleData
      [("Granted Patent_6172354", CacheRow.mk (StoredJson.wellFormed sampleData) none)] =
      Except.ok (CatOutcome.result 7,
        [("Granted Patent_6172354", CacheRow.mk (StoredJson.wellFormed sampleData) none)], 1) ∧
    categorize_with_llm digitParse (fun _ => "7") (LlmResult.content "8") sampleData
      [("Granted Patent_6172354", CacheRow.mk (StoredJson.wellFormed sampleData) none)] =
      Except.ok (CatOutcome.result 8,
        [("Granted Patent_6172354", CacheRow.mk (StoredJson.wellFormed sampleData) none)], 1) :=
  ⟨rfl, rfl⟩

/-- Claim C8 (amended): when the LLM answers but its content fails to parse
as JSON, `categorize_with_llm` does not raise: it returns the structured
error dict whose `raw_response` field carries the first 500 characters of
the fence-stripped, whitespace-trimmed response text; and when the API key
is absent it likewise returns an error dict instead of raising. -/
theorem c8_error_reporting {J : Type} (parse : String → Option J)
    (dump : J → String) (patent_data : PatentData) (cache : Cache)
    (p : PyPatent) (rest : List PyPatent) (content : String)
    (hp : patent_data.patents = some (p :: rest))
    (hmiss : getRow cache (p.patent_number.getD "") = none)
    (hparse : parse (cleanResponse content) = none) :
    categorize_with_llm parse dump (LlmResult.content content) patent_data cache =
      Except.ok (CatOutcome.errorVal "Failed to parse LLM response as JSON"
        (some (pyTake (cleanResponse content) 500)), cache, 1) ∧
    categorize_with_llm parse dump LlmResult.noKey patent_data cache =
      Except.ok (CatOutcome.errorVal
        "Together API key not found. Please set TOGETHER_API_KEY in .env or Streamlit secrets."
        none, cache, 1) := by
  have hcached : gptCached parse cache (p.patent_number.getD "") = none := by
    simp [gptCached, hmiss]
  constructor
  · simp [categorize_with_llm, hp, hcached, call_together_llama3, hparse]
  · simp [categorize_with_llm, hp, hcached, call_together_llama3]

/-- Witness for claim C8 (amended): an unparsable reply and a missing key
each yield the structured error dict. -/
theorem c8_error_reporting_witness :
    categorize_with_llm digitParse (fun _ => "") (LlmResult.content "not json")
      sampleData [] =
      Except.ok (CatOutcome.errorVal "Failed to parse LLM response as JSON"
        (some (pyTake (cleanResponse "not json") 500)), [], 1) ∧
    categorize_with_llm digitParse (fun _ => "") LlmResult.noKey sampleData [] =
      Except.ok (CatOutcome.errorVal
        "Together API key not found. Please set TOGETHER_API_KEY in .env or Streamlit secrets."
        none, [], 1) :=
  c8_error_reporting digitParse (fun _ => "") sampleData [] samplePatent []
    "not json" rfl rfl rfl

/-- Counterexample to claim C8 as stated: for the fenced, unparsable reply
the error dict carries "abc" — the fence-stripped, trimmed text — which is
not the first 500 characters of the raw response text. -/
theorem c8_counterexample :
    categorize_with_llm digitParse (fun _ => "") (LlmResult.content "```json\nabc```")
      sampleData [] =
      Except.ok (CatOutcome.errorVal "Failed to parse LLM response as JSON"
        (some "abc"), [], 1) ∧
    ("abc" : String) ≠ pyTake "```json\nabc```" 500 :=
  ⟨rfl, by decide⟩

/-- Claim C10: `categorize_with_llm` requires a non-empty `patents` list in
its input: a dict lacking the key raises a KeyError and a dict with an empty
list raises an IndexError — neither returns the structured error dict. -/
theorem c10_requires_nonempty_patents {J : Type} (parse : String → Option J)
    (dump : J → String) (llm : LlmResult) (cache : Cache)
    (patent_data : PatentData) :
    (patent_data.patents = none →
      categorize_with_llm parse dump llm patent_data cache =
        Except.error "KeyError: patents") ∧
    (patent_data.patents = some [] →
      categorize_with_llm parse dump llm patent_data cache =
        Except.error "IndexError: list index out of range") := by
  constructor
  · intro h
    simp [categorize_with_llm, h]
  · intro h
    simp [categorize_with_llm, h]

/-- Witness for claim C10 at the two degenerate inputs. -/
theorem c10_requires_nonempty_patents_witness :
    categorize_with_llm digitParse (fun _ => "") LlmResult.noKey
      (PatentData.mk none) [] = Except.error "KeyError: patents" ∧
    categorize_with_llm digitParse (fun _ => "") LlmResult.noKey
      (PatentData.mk (some [])) [] =
      Except.error "IndexError: list index out of range" :=
  ⟨(c10_requires_nonempty_patents digitParse (fun _ => "") LlmResult.noKey []
      (PatentData.mk none)).1 rfl,
   (c10_requires_nonempty_patents digitParse (fun _ => "") LlmResult.noKey []
      (PatentData.mk (some []))).2 rfl⟩

/-- Claim C6 (spec-modelled): in the fallback pipeline, a primary failure
with a legacy success returns the legacy record tagged with the legacy
source, and a total API failure with a successful scrape returns a record
with `source = google_patents_fallback` in which only title and abstract are
populated. -/
theorem c6_fallback_ordering (number : String) (env : SpecEnv) :
    (∀ r, env.primaryResult = none → env.legacyResult = some r →
      retrieve_fallback number env = some (setSource SpecSource.patentsview_legacy r) ∧
      (setSource SpecSource.patentsview_legacy r).source = SpecSource.patentsview_legacy) ∧
    (∀ t d, env.primaryResult = none → env.legacyResult = none →
      env.scrapeResult = some (t, d) →
      retrieve_fallback number env = some (scrapeRecord number (t, d)) ∧
      (scrapeRecord number (t, d)).source = SpecSource.google_patents_fallback ∧
      (scrapeRecord number (t, d)).title = some t ∧
      (scrapeRecord number (t, d)).abstract = some d ∧
      (scrapeRecord number (t, d)).filing_date = none ∧
      (scrapeRecord number (t, d)).grant_date = none ∧
      (scrapeRecord number (t, d)).assignees = [] ∧
      (scrapeRecord number (t, d)).inventors = [] ∧
      (scrapeRecord number (t, d)).cpc_codes = [] ∧
      (scrapeRecord number (t, d)).ipc_codes = [] ∧
      (scrapeRecord number (t, d)).uspc_codes = [] ∧
      (scrapeRecord number (t, d)).citation_count = none ∧
      (scrapeRecord number (t, d)).claim_text = none) := by
  constructor
  · intro r h1 h2
    exact ⟨by simp [retrieve_fallback, h1, h2], rfl⟩
  · intro t d h1 h2 h3
    exact ⟨by simp [retrieve_fallback, h1, h2, h3], rfl, rfl, rfl, rfl, rfl,
      rfl, rfl, rfl, rfl, rfl, rfl, rfl⟩

/-- Witness for claim C6 at a concrete legacy success and a concrete scrape
success. -/
theorem c6_fallback_ordering_witness :
    retrieve_fallback "6172354" (SpecEnv.mk none (some sampleSpecRecord) none) =
      some (setSource SpecSource.patentsview_legacy sampleSpecRecord) ∧
    retrieve_fallback "6172354"
      (SpecEnv.mk none none (some ("Operator input device", "An operator input device."))) =
      some (scrapeRecord "6172354" ("Operator input device", "An operator input device.")) :=
  ⟨((c6_fallback_ordering "6172354" (SpecEnv.mk none (some sampleSpecRecord) none)).1
      sampleSpecRecord rfl rfl).1,
   ((c6_fallback_ordering "6172354"
      (SpecEnv.mk none none (some ("Operator input device", "An operator input device.")))).2
      "Operator input device" "An operator input device." rfl rfl rfl).1⟩
